import Mathlib

/-!
Shallow embedding of `src/python/samples/chat.py` (the only source file of the
repository): an interactive chat sample that locates the `copilot` executable,
starts a `CopilotClient`, optionally lists models, selects a model/provider,
creates a session with an approve-all permission handler, runs a prompt loop,
and shuts the client down with a graceful-then-forced two-tier pattern.

Conventions of the embedding:
* Python strings are `String`; Python `None`-able strings are `Option String`.
* Python truthiness of an optional string (`if args.model:`) is `pyTruthyStrOpt`:
  `None` and `""` are falsy.
* Side effects of `main` are recorded as a trace, a `List Action`, paired with
  an `Outcome` (normal return or an uncaught exception leaving `main`).
* The timeout is a `float` in Python; the sample never computes with it, it only
  parses it and passes it through, so it is embedded as `Rat` (default `300`).
* Exceptions are embedded by their catch-relevant class: `asyncio.CancelledError`,
  `KeyboardInterrupt` and `SystemExit` (the `BaseException`-only classes visible
  in the except clauses' semantics), and `exception s` for any class deriving
  from `Exception` (e.g. `RuntimeError`, `EOFError`), carrying its name.
-/

namespace ChatSample

/-- Model descriptor surface `{id, name}` as used by `chat.py` (`m.id`, `m.name`). -/
structure ModelDescriptor where
  id : String
  name : String
deriving DecidableEq

/-- `BLUE = "\033[34m"` (chat.py line 8). -/
def BLUE : String := "\x1b[34m"

/-- `RESET = "\033[0m"` (chat.py line 9). -/
def RESET : String := "\x1b[0m"

/-- `IFLOW_PROVIDER` dict (chat.py lines 11-16); all its values are strings, so it
is embedded as an association list.  `env_IFLOW_API_KEY` is the value of
`os.environ.get("IFLOW_API_KEY")`, defaulted to `""` as in the source. -/
def IFLOW_PROVIDER (env_IFLOW_API_KEY : Option String) : List (String × String) :=
  [("type", "openai"),
   ("base_url", "https://apis.iflow.cn/v1/"),
   ("api_key", env_IFLOW_API_KEY.getD ""),
   ("wire_api", "completions")]

/-- The permission handlers the sample can install; `chat.py` only ever names
`PermissionHandler.approve_all`. -/
inductive PermissionChoice where
  | approve_all
deriving DecidableEq

/-- Values stored in the `session_config` dict of `chat.py` lines 60-65: the model
string, the permission handler, and (possibly) the provider dict. -/
inductive ConfigVal where
  | str : String → ConfigVal
  | handler : PermissionChoice → ConfigVal
  | providerDict : List (String × String) → ConfigVal
deriving DecidableEq

/-- Parsed command-line arguments (chat.py `parse_args`, lines 19-24). -/
structure Args where
  model : Option String
  list_models : Bool
  timeout : Rat
deriving DecidableEq

/-- The defaults of `parse_args`: `model=None`, `list_models=False`, `timeout=300`. -/
def defaultArgs : Args := { model := none, list_models := false, timeout := 300 }

/-- Python truthiness of an optional string: `None` and `""` are falsy. -/
def pyTruthyStrOpt : Option String → Bool
  | none => false
  | some s => decide (s ≠ "")

/-- `copilot_ids = {m.id for m in models}` (chat.py line 50); the set is only used
for membership tests, so a list of the ids is a faithful embedding. -/
def copilotIds (models : List ModelDescriptor) : List String :=
  models.map (fun m => m.id)

/-- `iflow_ids = {m.id for m in models if m.id == args.model} if args.model else set()`
(chat.py line 46).  Never read afterwards. -/
def iflowIdsOf (argsModel : Option String) (models : List ModelDescriptor) : List String :=
  if pyTruthyStrOpt argsModel = true then
    (models.filter (fun m => m.id = argsModel.getD "")).map (fun m => m.id)
  else []

set_option linter.unusedVariables false in
/-- The model/provider selection block of `chat.py` lines 46-58, kept branch for
branch, including the dead `iflow_ids` binding.  Returns
`(chosen_model, provider)`. -/
def determineModelProvider (argsModel : Option String) (models : List ModelDescriptor)
    (env_IFLOW_API_KEY : Option String) : String × Option (List (String × String)) :=
  let iflow_ids := iflowIdsOf argsModel models
  let chosen_model := argsModel
  if pyTruthyStrOpt chosen_model = true ∧ chosen_model.getD "" ∉ copilotIds models then
    (chosen_model.getD "", some (IFLOW_PROVIDER env_IFLOW_API_KEY))
  else if ¬ pyTruthyStrOpt chosen_model = true then
    ("qwen3-coder-plus", some (IFLOW_PROVIDER env_IFLOW_API_KEY))
  else
    (chosen_model.getD "", none)

/-- The selection block of `chat.py` lines 46-58 with the dead `iflow_ids`
assignment removed (the program variant claim C10 compares against). -/
def determineModelProviderNoDead (argsModel : Option String) (models : List ModelDescriptor)
    (env_IFLOW_API_KEY : Option String) : String × Option (List (String × String)) :=
  let chosen_model := argsModel
  if pyTruthyStrOpt chosen_model = true ∧ chosen_model.getD "" ∉ copilotIds models then
    (chosen_model.getD "", some (IFLOW_PROVIDER env_IFLOW_API_KEY))
  else if ¬ pyTruthyStrOpt chosen_model = true then
    ("qwen3-coder-plus", some (IFLOW_PROVIDER env_IFLOW_API_KEY))
  else
    (chosen_model.getD "", none)

/-- The `session_config` dict of `chat.py` lines 60-65: base keys `model` and
`on_permission_request`; `provider` is added by `session_config["provider"] = provider`
only when `if provider:` is truthy (not `None` and, for a dict, non-empty). -/
def sessionConfigOf (chosen_model : String) (provider : Option (List (String × String))) :
    List (String × ConfigVal) :=
  let base := [("model", ConfigVal.str chosen_model),
               ("on_permission_request", ConfigVal.handler PermissionChoice.approve_all)]
  match provider with
  | some p => if p ≠ [] then base ++ [("provider", ConfigVal.providerDict p)] else base
  | none => base

/-- Event data surface consumed by the sample: `data.content` and `data.tool_name`. -/
structure EventData where
  content : String
  tool_name : String
deriving DecidableEq

/-- An event as the sample's listener sees it; `type` embeds `event.type.value`. -/
structure Event where
  type : String
  data : EventData
deriving DecidableEq

/-- The `on_event` listener of `chat.py` lines 70-77, as the line it prints (if
any): `output` starts as `None`, is assigned for the two recognized types, and is
printed colored only when truthy (non-`None` and non-empty). -/
def on_event (event : Event) : Option String :=
  let output : Option String :=
    if event.type = "assistant.reasoning" then
      some ("[reasoning: " ++ event.data.content ++ "]")
    else if event.type = "tool.execution_start" then
      some ("[tool: " ++ event.data.tool_name ++ "]")
    else none
  match output with
  | some o => if o ≠ "" then some (BLUE ++ o ++ RESET) else none
  | none => none

/-- The whitespace set of CPython's `str.strip()` (its `Py_UNICODE_ISSPACE`):
the ASCII characters `09`-`0d` (tab, newline, vertical tab, form feed, carriage
return), the separator controls `1c`-`1f`, the space `20`, next line `85`,
no-break space `a0`, ogham space mark `1680`, the spaces `2000`-`200a`, line
separator `2028`, paragraph separator `2029`, narrow no-break space `202f`,
medium mathematical space `205f`, and ideographic space `3000`. -/
def isPySpace (c : Char) : Bool :=
  let n := c.toNat
  (0x09 ≤ n && n ≤ 0x0d) || (0x1c ≤ n && n ≤ 0x1f) || n = 0x20 ||
    n = 0x85 || n = 0xa0 || n = 0x1680 ||
    (0x2000 ≤ n && n ≤ 0x200a) || n = 0x2028 || n = 0x2029 || n = 0x202f ||
    n = 0x205f || n = 0x3000

/-- Python `str.strip()`: drop leading and trailing whitespace, for the full
whitespace set of `isPySpace`. -/
def pyStrip (s : String) : String :=
  String.mk (((s.toList.dropWhile isPySpace).reverse.dropWhile isPySpace).reverse)

/-- Observable actions of one run of `main` (chat.py lines 27-97). -/
inductive Action where
  | raiseRuntimeError : String → Action
  | constructClient : String → Action
  | clientStart : Action
  | listModelsCall : Action
  | printLine : String → Action
  | promptUser : String → Action
  | createSession : List (String × ConfigVal) → Action
  | registerOnEvent : Action
  | sendAndWait : String → Rat → Action
  | clientStop : Action
  | forceStop : Action
deriving DecidableEq

/-- Exception classes, by how the two except clauses of `chat.py` see them. -/
inductive ExcClass where
  | cancelledError
  | keyboardInterrupt
  | systemExit
  | exception : String → ExcClass
deriving DecidableEq

/-- Which exception classes `except (asyncio.CancelledError, Exception):`
(chat.py line 96) catches: `CancelledError` explicitly, and everything deriving
from `Exception`; `KeyboardInterrupt` and `SystemExit` derive only from
`BaseException` and are not caught. -/
def catchesStopExc : ExcClass → Bool
  | ExcClass.cancelledError => true
  | ExcClass.exception _ => true
  | ExcClass.keyboardInterrupt => false
  | ExcClass.systemExit => false

/-- One completed iteration of the chat loop: the raw line `input("You: ")`
returned, and the value `send_and_wait` resolved with (`none` on timeout) —
consulted only when the stripped input is non-empty. -/
structure LoopIter where
  userInput : String
  reply : Option Event
deriving DecidableEq

/-- Trace of one iteration of the `while True:` loop (chat.py lines 83-89):
prompt, and — unless the stripped input is empty, which `continue`s — a blank
line, the `send_and_wait` call with the stripped prompt and the timeout, and the
`Assistant:` line (`reply.data.content if reply else None`, where Python renders
`None` as the text `None`). -/
def loopIterTrace (timeout : Rat) (it : LoopIter) : List Action :=
  let user_input := pyStrip it.userInput
  if user_input = "" then
    [Action.promptUser "You: "]
  else
    [Action.promptUser "You: ",
     Action.printLine "",
     Action.sendAndWait user_input timeout,
     Action.printLine ("\n" ++ "Assistant: " ++
       (match it.reply with
        | some r => r.data.content
        | none => "None") ++ "\n")]

/-- How `main` terminates: normal return, or an exception propagating out. -/
inductive Outcome where
  | normal
  | uncaught : ExcClass → Outcome
deriving DecidableEq

/-- The environment one run of `main` interacts with: the result of
`shutil.which("copilot")`, the `IFLOW_API_KEY` environment variable, the list
`client.list_models()` returns, the completed loop iterations followed by the
exception that ends the `while True:` loop (it has no normal exit), and whether
`client.stop()` succeeds or raises (`force_stop` itself never raises, per the
SDK contract). -/
structure World where
  whichCopilot : Option String
  env_IFLOW_API_KEY : Option String
  models : List ModelDescriptor
  loopIters : List LoopIter
  loopEnd : ExcClass
  stopResult : Option ExcClass
deriving DecidableEq

/-- Actions of the `finally:` block (chat.py lines 93-97): `stop` is always
attempted; `force_stop` runs exactly when `stop` raised something the
`except (asyncio.CancelledError, Exception):` clause catches. -/
def finallyTrace : Option ExcClass → List Action
  | none => [Action.clientStop]
  | some e =>
    if catchesStopExc e then [Action.clientStop, Action.forceStop]
    else [Action.clientStop]

/-- Outcome after the `finally:` block: an exception `stop` raised that the inner
except clause does not catch replaces the in-flight outcome; otherwise the body's
outcome stands. -/
def afterFinally (bodyOutcome : Outcome) : Option ExcClass → Outcome
  | none => bodyOutcome
  | some e => if catchesStopExc e then bodyOutcome else Outcome.uncaught e

/-- The `try:` body of `main` together with the `except KeyboardInterrupt:`
handler (chat.py lines 36-92), as a trace plus the outcome reaching the
`finally:` block.  The `loopIters` of the world are the completed iterations of
the `while True:` loop; `loopEnd` is the exception that then ends the infinite
loop (for example `KeyboardInterrupt` at the next `input`), `KeyboardInterrupt`
being caught by line 91, which prints `Bye!`. -/
def bodyRun (args : Args) (w : World) : List Action × Outcome :=
  if args.list_models then
    ([Action.printLine "Available models:"] ++
       w.models.map (fun m => Action.printLine ("  " ++ m.id ++ ": " ++ m.name)),
     Outcome.normal)
  else
    let mp := determineModelProvider args.model w.models w.env_IFLOW_API_KEY
    let tr :=
      [Action.printLine ("Using model: " ++ mp.1 ++ "\n"),
       Action.createSession (sessionConfigOf mp.1 mp.2),
       Action.registerOnEvent,
       Action.printLine ("Chat with Copilot (Ctrl+C to exit)" ++ "\n")]
      ++ (w.loopIters.map (loopIterTrace args.timeout)).flatten
    match w.loopEnd with
    | ExcClass.keyboardInterrupt =>
      (tr ++ [Action.printLine ("\n" ++ "Bye!")], Outcome.normal)
    | e => (tr, Outcome.uncaught e)

/-- `main` (chat.py lines 27-97) as a trace of actions plus an outcome, over a
given parsed `Args` and `World`. -/
def mainRun (args : Args) (w : World) : List Action × Outcome :=
  match w.whichCopilot with
  | none =>
    ([Action.raiseRuntimeError "Copilot CLI not found in PATH"],
     Outcome.uncaught (ExcClass.exception "RuntimeError"))
  | some cli_path =>
    ([Action.constructClient cli_path, Action.clientStart, Action.listModelsCall] ++
       (bodyRun args w).1 ++ finallyTrace w.stopResult,
     afterFinally (bodyRun args w).2 w.stopResult)

/-- A reply frame arriving from the subprocess: its request id, arrival time, and
payload event. -/
structure IncomingReply where
  request_id : Nat
  arrival : Rat
  payload : Event
deriving DecidableEq

/-- Modelled from the spec: `Session.sendAndWait` of the SDK, which is not under
`src/` (the repository ships only the sample script that calls it).  Spec 4.3:
the call blocks until either (a) a reply event with the matching `request_id`
arrives — it resolves with that event — or (b) the timeout elapses — it resolves
with a timeout outcome, surfaced to this sample as `None`.  `events` is the
incoming reply stream in arrival order with arrival times measured from the send. -/
def sendAndWaitModel (rid : Nat) (timeout : Rat) (events : List IncomingReply) : Option Event :=
  match events.find? (fun e => e.request_id = rid) with
  | some e => if e.arrival ≤ timeout then some e.payload else none
  | none => none

/-! ### Helper lemmas -/

lemma mem_finallyTrace (a : Action) (r : Option ExcClass) :
    a ∈ finallyTrace r ↔
      a = Action.clientStop ∨
        (a = Action.forceStop ∧ ∃ e, r = some e ∧ catchesStopExc e = true) := by
  cases r with
  | none => simp [finallyTrace]
  | some e => by_cases hc : catchesStopExc e <;> simp [finallyTrace, hc]

lemma sendAndWait_mem_loopIterTrace {p : String} {t T : Rat} {it : LoopIter} :
    Action.sendAndWait p t ∈ loopIterTrace T it ↔
      pyStrip it.userInput ≠ "" ∧ p = pyStrip it.userInput ∧ t = T := by
  by_cases h : pyStrip it.userInput = "" <;> simp [loopIterTrace, h]

lemma mem_loopIterTrace_shape {a : Action} {T : Rat} {it : LoopIter}
    (h : a ∈ loopIterTrace T it) :
    (∃ s, a = Action.promptUser s) ∨ (∃ s, a = Action.printLine s) ∨
      ∃ p t, a = Action.sendAndWait p t := by
  by_cases hs : pyStrip it.userInput = "" <;> simp [loopIterTrace, hs] at h
  · exact Or.inl ⟨_, h⟩
  · rcases h with h | h | h | h
    · exact Or.inl ⟨_, h⟩
    · exact Or.inr (Or.inl ⟨_, h⟩)
    · exact Or.inr (Or.inr ⟨_, _, h⟩)
    · exact Or.inr (Or.inl ⟨_, h⟩)

lemma createSession_not_mem_loopIterTrace {c : List (String × ConfigVal)}
    {T : Rat} {it : LoopIter} : Action.createSession c ∉ loopIterTrace T it := by
  intro h
  rcases mem_loopIterTrace_shape h with ⟨s, hs⟩ | ⟨s, hs⟩ | ⟨p, t, hs⟩ <;> simp at hs

lemma clientStop_not_mem_loopIterTrace {T : Rat} {it : LoopIter} :
    Action.clientStop ∉ loopIterTrace T it := by
  intro h
  rcases mem_loopIterTrace_shape h with ⟨s, hs⟩ | ⟨s, hs⟩ | ⟨p, t, hs⟩ <;> simp at hs

lemma forceStop_not_mem_loopIterTrace {T : Rat} {it : LoopIter} :
    Action.forceStop ∉ loopIterTrace T it := by
  intro h
  rcases mem_loopIterTrace_shape h with ⟨s, hs⟩ | ⟨s, hs⟩ | ⟨p, t, hs⟩ <;> simp at hs

lemma raiseRuntimeError_not_mem_loopIterTrace {s : String} {T : Rat} {it : LoopIter} :
    Action.raiseRuntimeError s ∉ loopIterTrace T it := by
  intro h
  rcases mem_loopIterTrace_shape h with ⟨u, hu⟩ | ⟨u, hu⟩ | ⟨p, t, hu⟩ <;> simp at hu

lemma clientStop_not_mem_bodyRun {args : Args} {w : World} :
    Action.clientStop ∉ (bodyRun args w).1 := by
  unfold bodyRun
  cases hl : args.list_models with
  | true => simp
  | false =>
    cases hE : w.loopEnd <;>
      simp [hE, List.mem_flatten, clientStop_not_mem_loopIterTrace]

lemma forceStop_not_mem_bodyRun {args : Args} {w : World} :
    Action.forceStop ∉ (bodyRun args w).1 := by
  unfold bodyRun
  cases hl : args.list_models with
  | true => simp
  | false =>
    cases hE : w.loopEnd <;>
      simp [hE, List.mem_flatten, forceStop_not_mem_loopIterTrace]

lemma raiseRuntimeError_not_mem_bodyRun {s : String} {args : Args} {w : World} :
    Action.raiseRuntimeError s ∉ (bodyRun args w).1 := by
  unfold bodyRun
  cases hl : args.list_models with
  | true => simp
  | false =>
    cases hE : w.loopEnd <;>
      simp [hE, List.mem_flatten, raiseRuntimeError_not_mem_loopIterTrace]

lemma createSession_mem_bodyRun {args : Args} {w : World} {c : List (String × ConfigVal)} :
    Action.createSession c ∈ (bodyRun args w).1 ↔
      args.list_models = false ∧
        c = sessionConfigOf (determineModelProvider args.model w.models w.env_IFLOW_API_KEY).1
              (determineModelProvider args.model w.models w.env_IFLOW_API_KEY).2 := by
  unfold bodyRun
  cases hl : args.list_models with
  | true => simp [hl]
  | false =>
    cases hE : w.loopEnd <;>
      simp [hl, hE, List.mem_flatten, createSession_not_mem_loopIterTrace]

lemma sendAndWait_mem_bodyRun {args : Args} {w : World} {p : String} {t : Rat} :
    Action.sendAndWait p t ∈ (bodyRun args w).1 ↔
      args.list_models = false ∧ t = args.timeout ∧
        ∃ it ∈ w.loopIters, pyStrip it.userInput ≠ "" ∧ p = pyStrip it.userInput := by
  unfold bodyRun
  cases hl : args.list_models with
  | true => simp [hl]
  | false =>
    cases hE : w.loopEnd <;>
      simp [hl, hE, List.mem_flatten, sendAndWait_mem_loopIterTrace] <;>
      tauto

lemma mainRun_none {args : Args} {w : World} (h : w.whichCopilot = none) :
    mainRun args w = ([Action.raiseRuntimeError "Copilot CLI not found in PATH"],
      Outcome.uncaught (ExcClass.exception "RuntimeError")) := by
  simp [mainRun, h]

lemma mainRun_some {args : Args} {w : World} {cp : String} (h : w.whichCopilot = some cp) :
    mainRun args w =
      ([Action.constructClient cp, Action.clientStart, Action.listModelsCall] ++
         (bodyRun args w).1 ++ finallyTrace w.stopResult,
       afterFinally (bodyRun args w).2 w.stopResult) := by
  simp [mainRun, h]

lemma mem_mainRun_some {a : Action} {args : Args} {w : World} {cp : String}
    (h : w.whichCopilot = some cp) :
    a ∈ (mainRun args w).1 ↔
      a = Action.constructClient cp ∨ a = Action.clientStart ∨ a = Action.listModelsCall ∨
        a ∈ (bodyRun args w).1 ∨ a ∈ finallyTrace w.stopResult := by
  rw [mainRun_some h]
  simp [List.mem_append, or_assoc]

/-- The provider chosen by the selection block is `none` or exactly the iflow
override; it is never some other dict. -/
lemma provider_shape (argsModel : Option String) (models : List ModelDescriptor)
    (key : Option String) :
    (determineModelProvider argsModel models key).2 = none ∨
      (determineModelProvider argsModel models key).2 = some (IFLOW_PROVIDER key) := by
  simp only [determineModelProvider]
  split
  · exact Or.inr rfl
  · split
    · exact Or.inr rfl
    · exact Or.inl rfl

/-- Appending around a string whose leading literal part is non-empty never
yields the empty string. -/
lemma append3_ne_empty {pre mid post : String} (hpre : pre.length ≠ 0) :
    pre ++ mid ++ post ≠ "" := by
  intro h
  have hlen := congrArg String.length h
  rw [String.length_append, String.length_append] at hlen
  simp at hlen
  omega

/-! ### Claim theorems -/

/-- C1 counterexample: the claim says that whenever the `--model` argument is
among the ids returned by `list_models`, no provider override is set.  With
`--model ""` and a model whose id is `""`, the argument is among the ids, yet
the code takes the `elif not chosen_model:` branch (Python treats `""` as
falsy) and sets the iflow provider override. -/
theorem C1_counterexample :
    "" ∈ copilotIds [{ id := "", name := "empty" }] ∧
      (determineModelProvider (some "") [{ id := "", name := "empty" }] none).2 ≠ none := by
  decide

/-- C1 (amended): for every invocation with a non-empty `--model` argument `m`,
if `m` is not among the ids returned by `list_models` the provider is the iflow
override and the chosen model is `m`; if `m` is among those ids, no provider
override is set and the chosen model is `m`; and if `--model` is absent (or the
empty string, which Python's truthiness treats the same), the chosen model is
`qwen3-coder-plus` with the iflow override. -/
theorem C1_model_provider_selection (argsModel : Option String)
    (models : List ModelDescriptor) (key : Option String) :
    (∀ m, argsModel = some m → m ≠ "" →
      ((m ∉ copilotIds models →
          determineModelProvider argsModel models key = (m, some (IFLOW_PROVIDER key))) ∧
        (m ∈ copilotIds models →
          determineModelProvider argsModel models key = (m, none)))) ∧
    ((argsModel = none ∨ argsModel = some "") →
      determineModelProvider argsModel models key =
        ("qwen3-coder-plus", some (IFLOW_PROVIDER key))) := by
  constructor
  · rintro m rfl hne
    constructor
    · intro hnot
      simp [determineModelProvider, pyTruthyStrOpt, hne, hnot]
    · intro hmem
      simp [determineModelProvider, pyTruthyStrOpt, hne, hmem]
  · rintro (rfl | rfl) <;> simp [determineModelProvider, pyTruthyStrOpt]

/-- C1 witness: a model id present in the list keeps Copilot's default auth. -/
theorem C1_model_provider_selection_witness :
    determineModelProvider (some "gpt-5") [{ id := "gpt-5", name := "GPT 5" }] none =
      ("gpt-5", none) :=
  ((C1_model_provider_selection (some "gpt-5") [{ id := "gpt-5", name := "GPT 5" }] none).1
      "gpt-5" rfl (by decide)).2 (by decide)

/-- C7: the registered listener prints a colored line exactly for events whose
type value is `assistant.reasoning` (the `[reasoning: ...]` line) or
`tool.execution_start` (the `[tool: ...]` line); every other event type
produces no output. -/
theorem C7_listener_filter (ev : Event) :
    ((on_event ev).isSome = true ↔
        ev.type = "assistant.reasoning" ∨ ev.type = "tool.execution_start") ∧
    (ev.type = "assistant.reasoning" →
      on_event ev = some (BLUE ++ ("[reasoning: " ++ ev.data.content ++ "]") ++ RESET)) ∧
    (ev.type = "tool.execution_start" →
      on_event ev = some (BLUE ++ ("[tool: " ++ ev.data.tool_name ++ "]") ++ RESET)) ∧
    (ev.type ≠ "assistant.reasoning" → ev.type ≠ "tool.execution_start" →
      on_event ev = none) := by
  have h1 : ("[reasoning: " ++ ev.data.content ++ "]") ≠ "" :=
    append3_ne_empty (by decide)
  have h2 : ("[tool: " ++ ev.data.tool_name ++ "]") ≠ "" :=
    append3_ne_empty (by decide)
  by_cases ha : ev.type = "assistant.reasoning"
  · simp [on_event, ha, h1]
  · by_cases hb : ev.type = "tool.execution_start"
    · simp [on_event, ha, hb, h2]
    · simp [on_event, ha, hb]

/-- C7 witness: a reasoning event is printed as a colored `[reasoning: ...]` line. -/
theorem C7_listener_filter_witness :
    on_event { type := "assistant.reasoning", data := { content := "c", tool_name := "t" } } =
      some (BLUE ++ ("[reasoning: " ++ "c" ++ "]") ++ RESET) :=
  (C7_listener_filter ⟨"assistant.reasoning", ⟨"c", "t"⟩⟩).2.1 rfl

/-- C8: an input line whose `strip()` is empty makes the loop iteration
immediately re-prompt with no `send_and_wait` call; a prompt is submitted only
for inputs non-empty after stripping, and the submitted prompt is exactly the
stripped string (with the `--timeout` value attached). -/
theorem C8_empty_input_skip (timeout : Rat) (it : LoopIter) :
    (pyStrip it.userInput = "" →
      loopIterTrace timeout it = [Action.promptUser "You: "]) ∧
    (pyStrip it.userInput ≠ "" →
      Action.sendAndWait (pyStrip it.userInput) timeout ∈ loopIterTrace timeout it) ∧
    (∀ p t, Action.sendAndWait p t ∈ loopIterTrace timeout it →
      pyStrip it.userInput ≠ "" ∧ p = pyStrip it.userInput ∧ t = timeout) := by
  refine ⟨fun h => by simp [loopIterTrace, h], fun h => by simp [loopIterTrace, h], ?_⟩
  intro p t h
  exact sendAndWait_mem_loopIterTrace.mp h

/-- C8 witness: whitespace-only input produces just the re-prompt. -/
theorem C8_empty_input_skip_witness :
    loopIterTrace 300 { userInput := "   ", reply := none } = [Action.promptUser "You: "] :=
  (C8_empty_input_skip 300 { userInput := "   ", reply := none }).1 (by decide)

/-- C10: the `iflow_ids` binding is dead — the selection block with the
assignment removed computes the same `(chosen_model, provider)` on every input —
and the selection depends on the model list only through the set of ids it
contributes to the membership test. -/
theorem C10_dead_iflow_ids_equiv :
    (∀ (argsModel : Option String) (models : List ModelDescriptor) (key : Option String),
      determineModelProvider argsModel models key =
        determineModelProviderNoDead argsModel models key) ∧
    (∀ (argsModel : Option String) (models1 models2 : List ModelDescriptor)
        (key : Option String),
      (∀ s, s ∈ copilotIds models1 ↔ s ∈ copilotIds models2) →
      determineModelProviderNoDead argsModel models1 key =
        determineModelProviderNoDead argsModel models2 key) := by
  constructor
  · intro a m k
    rfl
  · intro a m1 m2 k h
    by_cases hp : pyTruthyStrOpt a = true
    · by_cases hm : a.getD "" ∈ copilotIds m1
      · have hm2 : a.getD "" ∈ copilotIds m2 := (h _).mp hm
        simp [determineModelProviderNoDead, hp, hm, hm2]
      · have hm2 : a.getD "" ∉ copilotIds m2 := fun hc => hm ((h _).mpr hc)
        simp [determineModelProviderNoDead, hp, hm, hm2]
    · simp [determineModelProviderNoDead, hp]

/-- C10 witness: two model lists with the same underlying id set yield the same
selection. -/
theorem C10_dead_iflow_ids_equiv_witness :
    determineModelProviderNoDead (some "a")
        [{ id := "a", name := "x" }, { id := "a", name := "y" }] none =
      determineModelProviderNoDead (some "a") [{ id := "a", name := "z" }] none :=
  C10_dead_iflow_ids_equiv.2 (some "a")
    [{ id := "a", name := "x" }, { id := "a", name := "y" }]
    [{ id := "a", name := "z" }] none (by intro s; simp [copilotIds])

/-- C2 counterexample: the claim says `force_stop()` is invoked whenever
`stop()` raises any exception.  `except (asyncio.CancelledError, Exception):`
does not catch `KeyboardInterrupt` (which derives only from `BaseException`), so
in a run where `stop()` raises `KeyboardInterrupt` the trace contains no
`force_stop` and the exception propagates out of `main`. -/
theorem C2_counterexample :
    Action.forceStop ∉
        (mainRun (⟨none, true, 300⟩ : Args)
          (⟨some "/usr/bin/copilot", none, [], [], ExcClass.keyboardInterrupt,
            some ExcClass.keyboardInterrupt⟩ : World)).1 ∧
      (mainRun (⟨none, true, 300⟩ : Args)
          (⟨some "/usr/bin/copilot", none, [], [], ExcClass.keyboardInterrupt,
            some ExcClass.keyboardInterrupt⟩ : World)).2 =
        Outcome.uncaught ExcClass.keyboardInterrupt := by
  decide

/-- C2 (amended): on every exit path after `client.start()` succeeded — normal
return, `KeyboardInterrupt`, or any other exception ending the loop —
`client.stop()` is attempted, and `client.force_stop()` is invoked exactly when
`stop()` raises `asyncio.CancelledError` or an `Exception`-derived exception;
an exception of a `BaseException`-only class (such as `KeyboardInterrupt`)
raised by `stop()` propagates without a `force_stop` attempt. -/
theorem C2_two_tier_shutdown (args : Args) (w : World) (cp : String)
    (h : w.whichCopilot = some cp) :
    Action.clientStop ∈ (mainRun args w).1 ∧
    (w.stopResult = none → Action.forceStop ∉ (mainRun args w).1) ∧
    (∀ e, w.stopResult = some e →
      (Action.forceStop ∈ (mainRun args w).1 ↔ catchesStopExc e = true)) := by
  refine ⟨?_, ?_, ?_⟩
  · rw [mem_mainRun_some h]
    have hmem := (mem_finallyTrace Action.clientStop w.stopResult).mpr (Or.inl rfl)
    tauto
  · intro hr hc
    rw [mem_mainRun_some h] at hc
    rcases hc with h1 | h1 | h1 | h1 | h1
    · simp at h1
    · simp at h1
    · simp at h1
    · exact forceStop_not_mem_bodyRun h1
    · rw [hr] at h1
      simp [finallyTrace] at h1
  · intro e he
    constructor
    · intro hc
      rw [mem_mainRun_some h] at hc
      rcases hc with h1 | h1 | h1 | h1 | h1
      · simp at h1
      · simp at h1
      · simp at h1
      · exact absurd h1 forceStop_not_mem_bodyRun
      · rcases (mem_finallyTrace _ _).mp h1 with h2 | ⟨-, e', he', hce⟩
        · simp at h2
        · rw [he] at he'
          cases he'
          exact hce
    · intro hce
      rw [mem_mainRun_some h]
      exact Or.inr (Or.inr (Or.inr (Or.inr
        ((mem_finallyTrace _ _).mpr (Or.inr ⟨rfl, e, he, hce⟩)))))

/-- C2 witness: `stop()` raising `asyncio.CancelledError` triggers `force_stop`. -/
theorem C2_two_tier_shutdown_witness :
    Action.forceStop ∈
      (mainRun (⟨none, true, 300⟩ : Args)
        (⟨some "/usr/bin/copilot", none, [], [], ExcClass.keyboardInterrupt,
          some ExcClass.cancelledError⟩ : World)).1 :=
  ((C2_two_tier_shutdown _ _ "/usr/bin/copilot" rfl).2.2 ExcClass.cancelledError rfl).mpr rfl

/-- C4: when `shutil.which("copilot")` finds nothing, `main` raises
`RuntimeError("Copilot CLI not found in PATH")` and its whole trace is that
raise — no client is constructed or started; when the executable is found, the
client is constructed with the found path and started, and no `RuntimeError` is
raised. -/
theorem C4_fail_fast_missing_executable (args : Args) (w : World) :
    (w.whichCopilot = none →
      mainRun args w =
        ([Action.raiseRuntimeError "Copilot CLI not found in PATH"],
          Outcome.uncaught (ExcClass.exception "RuntimeError")) ∧
      (∀ p, Action.constructClient p ∉ (mainRun args w).1) ∧
      Action.clientStart ∉ (mainRun args w).1) ∧
    (∀ cp, w.whichCopilot = some cp →
      Action.constructClient cp ∈ (mainRun args w).1 ∧
      Action.clientStart ∈ (mainRun args w).1 ∧
      ∀ s, Action.raiseRuntimeError s ∉ (mainRun args w).1) := by
  constructor
  · intro h
    refine ⟨mainRun_none h, ?_, ?_⟩
    · intro p hp
      rw [mainRun_none h] at hp
      simp at hp
    · intro hp
      rw [mainRun_none h] at hp
      simp at hp
  · intro cp h
    refine ⟨?_, ?_, ?_⟩
    · rw [mem_mainRun_some h]
      exact Or.inl rfl
    · rw [mem_mainRun_some h]
      tauto
    · intro s hs
      rw [mem_mainRun_some h] at hs
      rcases hs with h1 | h1 | h1 | h1 | h1
      · simp at h1
      · simp at h1
      · simp at h1
      · exact raiseRuntimeError_not_mem_bodyRun h1
      · rcases (mem_finallyTrace _ _).mp h1 with h2 | ⟨h2, -⟩ <;> simp at h2

/-- C4 witness: a world where no executable is found produces exactly the
raising trace. -/
theorem C4_fail_fast_missing_executable_witness :
    mainRun defaultArgs (⟨none, none, [], [], ExcClass.keyboardInterrupt, none⟩ : World) =
      ([Action.raiseRuntimeError "Copilot CLI not found in PATH"],
        Outcome.uncaught (ExcClass.exception "RuntimeError")) :=
  ((C4_fail_fast_missing_executable defaultArgs
      ⟨none, none, [], [], ExcClass.keyboardInterrupt, none⟩).1 rfl).1

/-- C6: with `--list-models`, `main` prints the `Available models:` header
followed by exactly one `  {id}: {name}` line per returned descriptor, in order,
then returns (through the `finally:` shutdown) without ever creating a session
or sending a prompt. -/
theorem C6_list_models_mode (args : Args) (w : World) (cp : String)
    (hl : args.list_models = true) (h : w.whichCopilot = some cp) :
    (mainRun args w).1 =
      [Action.constructClient cp, Action.clientStart, Action.listModelsCall,
        Action.printLine "Available models:"] ++
      w.models.map (fun m => Action.printLine ("  " ++ m.id ++ ": " ++ m.name)) ++
      finallyTrace w.stopResult ∧
    (∀ c, Action.createSession c ∉ (mainRun args w).1) ∧
    (∀ p t, Action.sendAndWait p t ∉ (mainRun args w).1) ∧
    (mainRun args w).2 = afterFinally Outcome.normal w.stopResult := by
  have hb : bodyRun args w =
      ([Action.printLine "Available models:"] ++
        w.models.map (fun m => Action.printLine ("  " ++ m.id ++ ": " ++ m.name)),
       Outcome.normal) := by
    simp [bodyRun, hl]
  refine ⟨?_, ?_, ?_, ?_⟩
  · rw [mainRun_some h, hb]
    simp
  · intro c hc
    rw [mem_mainRun_some h] at hc
    rcases hc with h1 | h1 | h1 | h1 | h1
    · simp at h1
    · simp at h1
    · simp at h1
    · rw [createSession_mem_bodyRun, hl] at h1
      simp at h1
    · rcases (mem_finallyTrace _ _).mp h1 with h2 | ⟨h2, -⟩ <;> simp at h2
  · intro p t ht
    rw [mem_mainRun_some h] at ht
    rcases ht with h1 | h1 | h1 | h1 | h1
    · simp at h1
    · simp at h1
    · simp at h1
    · rw [sendAndWait_mem_bodyRun, hl] at h1
      simp at h1
    · rcases (mem_finallyTrace _ _).mp h1 with h2 | ⟨h2, -⟩ <;> simp at h2
  · rw [mainRun_some h, hb]

/-- C6 witness: one descriptor produces exactly one listing line. -/
theorem C6_list_models_mode_witness :
    (mainRun (⟨none, true, 300⟩ : Args)
        (⟨some "/c", none, [⟨"a", "A"⟩], [], ExcClass.keyboardInterrupt, none⟩ : World)).1 =
      [Action.constructClient "/c", Action.clientStart, Action.listModelsCall,
        Action.printLine "Available models:"] ++
      [(⟨"a", "A"⟩ : ModelDescriptor)].map
        (fun m => Action.printLine ("  " ++ m.id ++ ": " ++ m.name)) ++
      finallyTrace none :=
  (C6_list_models_mode (⟨none, true, 300⟩ : Args)
    (⟨some "/c", none, [⟨"a", "A"⟩], [], ExcClass.keyboardInterrupt, none⟩ : World)
    "/c" rfl rfl).1

/-- Any session-config dict passed to `create_session` in a run of `main` is
exactly the one built from the selection block's output. -/
lemma createSession_mem_mainRun {args : Args} {w : World} {c : List (String × ConfigVal)}
    (h : Action.createSession c ∈ (mainRun args w).1) :
    c = sessionConfigOf (determineModelProvider args.model w.models w.env_IFLOW_API_KEY).1
          (determineModelProvider args.model w.models w.env_IFLOW_API_KEY).2 := by
  cases hw : w.whichCopilot with
  | none =>
    rw [mainRun_none hw] at h
    simp at h
  | some cp =>
    rw [mem_mainRun_some hw] at h
    rcases h with h1 | h1 | h1 | h1 | h1
    · simp at h1
    · simp at h1
    · simp at h1
    · exact (createSession_mem_bodyRun.mp h1).2
    · rcases (mem_finallyTrace _ _).mp h1 with h2 | ⟨h2, -⟩ <;> simp at h2

/-- C3: `send_and_wait` (modelled from the spec, the SDK being outside `src/`)
resolves with the first matching reply if it arrives within the timeout and with
`None` when the timeout elapses with no reply; in the `None` case the loop
iteration prints `Assistant: None` instead of raising; and every `send_and_wait`
call of a run passes the `--timeout` value, whose parser default is `300`. -/
theorem C3_send_and_wait_timeout (rid : Nat) (T : Rat) (events : List IncomingReply)
    (args : Args) (w : World) (it : LoopIter) :
    (∀ ev, sendAndWaitModel rid T events = some ev →
      ∃ ie ∈ events, ie.request_id = rid ∧ ie.arrival ≤ T ∧ ie.payload = ev) ∧
    ((∀ ie ∈ events, ie.request_id = rid → ¬ ie.arrival ≤ T) →
      sendAndWaitModel rid T events = none) ∧
    (pyStrip it.userInput ≠ "" → it.reply = none →
      Action.printLine ("\n" ++ "Assistant: " ++ "None" ++ "\n") ∈ loopIterTrace T it) ∧
    (∀ ev, pyStrip it.userInput ≠ "" → it.reply = some ev →
      Action.printLine ("\n" ++ "Assistant: " ++ ev.data.content ++ "\n") ∈
        loopIterTrace T it) ∧
    (∀ p t, Action.sendAndWait p t ∈ (mainRun args w).1 → t = args.timeout) ∧
    defaultArgs.timeout = 300 := by
  refine ⟨?_, ?_, ?_, ?_, ?_, rfl⟩
  · intro ev h
    unfold sendAndWaitModel at h
    split at h
    · next e hf =>
      split at h
      · next hle =>
        cases h
        have hp := List.find?_some hf
        simp at hp
        exact ⟨e, List.mem_of_find?_eq_some hf, hp, hle, rfl⟩
      · cases h
    · cases h
  · intro hall
    unfold sendAndWaitModel
    split
    · next e hf =>
      have hmem := List.mem_of_find?_eq_some hf
      have hp := List.find?_some hf
      simp at hp
      rw [if_neg (hall e hmem hp)]
    · rfl
  · intro hne hrep
    simp [loopIterTrace, hne, hrep]
  · intro ev hne hrep
    simp [loopIterTrace, hne, hrep]
  · intro p t h
    cases hw : w.whichCopilot with
    | none =>
      rw [mainRun_none hw] at h
      simp at h
    | some cp =>
      rw [mem_mainRun_some hw] at h
      rcases h with h1 | h1 | h1 | h1 | h1
      · simp at h1
      · simp at h1
      · simp at h1
      · exact (sendAndWait_mem_bodyRun.mp h1).2.1
      · rcases (mem_finallyTrace _ _).mp h1 with h2 | ⟨h2, -⟩ <;> simp at h2

/-- C3 witness: with no reply frame at all, `send_and_wait` resolves with `None`. -/
theorem C3_send_and_wait_timeout_witness :
    sendAndWaitModel 1 5 [] = none :=
  (C3_send_and_wait_timeout 1 5 [] defaultArgs
      ⟨none, none, [], [], ExcClass.keyboardInterrupt, none⟩ ⟨"", none⟩).2.1 (by simp)

/-- C5: every dict passed to `create_session` has exactly the keys `model` and
`on_permission_request` — plus `provider` if and only if a provider override was
selected — the `model` entry is the chosen model string, and any `provider`
value has exactly the keys `type`, `base_url`, `api_key`, `wire_api`. -/
theorem C5_session_config_shape (args : Args) (w : World) (c : List (String × ConfigVal))
    (h : Action.createSession c ∈ (mainRun args w).1) :
    ((c.map Prod.fst = ["model", "on_permission_request"] ∧
        (determineModelProvider args.model w.models w.env_IFLOW_API_KEY).2 = none) ∨
      (c.map Prod.fst = ["model", "on_permission_request", "provider"] ∧
        (determineModelProvider args.model w.models w.env_IFLOW_API_KEY).2 ≠ none)) ∧
    (∀ p, ("provider", ConfigVal.providerDict p) ∈ c →
      p.map Prod.fst = ["type", "base_url", "api_key", "wire_api"]) ∧
    ("model", ConfigVal.str (determineModelProvider args.model w.models w.env_IFLOW_API_KEY).1)
      ∈ c := by
  have hc := createSession_mem_mainRun h
  subst hc
  rcases provider_shape args.model w.models w.env_IFLOW_API_KEY with hp | hp <;> rw [hp]
  · refine ⟨Or.inl ⟨?_, rfl⟩, ?_, ?_⟩
    · simp [sessionConfigOf]
    · intro p hp2
      simp [sessionConfigOf] at hp2
    · simp [sessionConfigOf]
  · refine ⟨Or.inr ⟨?_, by simp⟩, ?_, ?_⟩
    · simp [sessionConfigOf, IFLOW_PROVIDER]
    · intro p hp2
      simp [sessionConfigOf, IFLOW_PROVIDER] at hp2
      rw [hp2]
      simp [IFLOW_PROVIDER]
    · simp [sessionConfigOf, IFLOW_PROVIDER]

/-- C5 witness: the default invocation's config carries the three keys, the
provider override being selected. -/
theorem C5_session_config_shape_witness :
    ((sessionConfigOf "qwen3-coder-plus" (some (IFLOW_PROVIDER (some "k")))).map Prod.fst =
        ["model", "on_permission_request"] ∧
      (determineModelProvider none [] (some "k")).2 = none) ∨
    ((sessionConfigOf "qwen3-coder-plus" (some (IFLOW_PROVIDER (some "k")))).map Prod.fst =
        ["model", "on_permission_request", "provider"] ∧
      (determineModelProvider none [] (some "k")).2 ≠ none) :=
  (C5_session_config_shape (⟨none, false, 300⟩ : Args)
    (⟨some "/c", some "k", [], [], ExcClass.keyboardInterrupt, none⟩ : World)
    (sessionConfigOf "qwen3-coder-plus" (some (IFLOW_PROVIDER (some "k")))) (by decide)).1

/-- C9: every session the sample creates installs
`PermissionHandler.approve_all` as `on_permission_request`, and no other value
is ever bound to that key. -/
theorem C9_permission_policy (args : Args) (w : World) (c : List (String × ConfigVal))
    (h : Action.createSession c ∈ (mainRun args w).1) :
    ("on_permission_request", ConfigVal.handler PermissionChoice.approve_all) ∈ c ∧
    ∀ v, ("on_permission_request", v) ∈ c →
      v = ConfigVal.handler PermissionChoice.approve_all := by
  have hc := createSession_mem_mainRun h
  subst hc
  rcases provider_shape args.model w.models w.env_IFLOW_API_KEY with hp | hp <;> rw [hp]
  · constructor
    · simp [sessionConfigOf]
    · intro v hv
      simp [sessionConfigOf] at hv
      exact hv
  · constructor
    · simp [sessionConfigOf, IFLOW_PROVIDER]
    · intro v hv
      simp [sessionConfigOf, IFLOW_PROVIDER] at hv
      exact hv

/-- C9 witness: the default invocation's config maps `on_permission_request` to
the approve-all handler. -/
theorem C9_permission_policy_witness :
    ("on_permission_request", ConfigVal.handler PermissionChoice.approve_all) ∈
      sessionConfigOf "qwen3-coder-plus" (some (IFLOW_PROVIDER none)) :=
  (C9_permission_policy (⟨none, false, 300⟩ : Args)
    (⟨some "/c", none, [], [], ExcClass.keyboardInterrupt, none⟩ : World)
    (sessionConfigOf "qwen3-coder-plus" (some (IFLOW_PROVIDER none))) (by decide)).1

end ChatSample
